import Mathlib

/-!
# Verification of the b3j0f/schema validation engine

A shallow embedding of the core of the `b3j0f.schema` Python package:
the base validation routine (`b3j0f/schema/base.py`, `_Schema._validate`,
`_Schema._setter`), the content-resolution pass (`updatecontent`), the
schema registry (`b3j0f/schema/registry.py`), and the function-signature
deriver (`b3j0f/schema/lang/python.py`, `FunctionSchema`).

Conventions of the embedding:
* Python exceptions are modelled by `Except PyErr`; each `raise` site in the
  source is mapped to a dedicated `PyErr` constructor.
* Python 3 semantics are used for `!=` (the negation of `__eq__` when only
  `__eq__` is defined) and for the insertion order of `dict`.
* Python recursion is bounded by an explicit fuel argument; exhausting the
  fuel models `RecursionError`.  All configurations appearing in theorems
  terminate well within the provided fuel.
-/

namespace B3jSchema

/-- Runtime Python types relevant to the embedding; `tNumber` is the
abstract numeric tower class `numbers.Number`. -/
inductive PyType : Type where
  | tBool
  | tInt
  | tNumber
  | tStr
  | tFunction
  | tDyn
  | tObject
  deriving DecidableEq, Repr

/-- Embeds `issubclass` restricted to the embedded types: the host numeric tower
has `bool <= int <= Number`, every type is a subclass of itself and of
`object`. -/
def pyIssubclass : PyType → PyType → Bool
  | _, .tObject => true
  | .tBool, .tBool => true
  | .tBool, .tInt => true
  | .tBool, .tNumber => true
  | .tInt, .tInt => true
  | .tInt, .tNumber => true
  | .tNumber, .tNumber => true
  | .tStr, .tStr => true
  | .tFunction, .tFunction => true
  | .tDyn, .tDyn => true
  | _, _ => false

/-- Python data values, as far as the validation engine inspects them:
`vnone` is `None`, `vdyn` wraps a `DynamicValue` whose evaluation yields
the inner value, `vobj ty isSchema attrs` is an object of runtime type
`ty`, with `isSchema` recording whether it is a `_Schema` instance
(the check performed by `MetaSchema.__instancecheck__`) and `attrs` its
attribute dictionary as consulted by `hasattr`/`getattr`. -/
inductive PyData : Type where
  | vnone
  | vdyn (inner : PyData)
  | vint (n : Int)
  | vstr (s : String)
  | vobj (ty : PyType) (isSchema : Bool) (attrs : List (String × PyData))
  deriving Repr

/-- Embeds `data is None`. -/
def PyData.isNone : PyData → Bool
  | .vnone => true
  | _ => false

mutual

/-- Python `==` on the embedded values (identity-free structural equality;
the values compared by the engine are `None`, numbers and strings, where
this coincides with Python `==`). -/
def PyData.beq : PyData → PyData → Bool
  | .vnone, .vnone => true
  | .vdyn a, .vdyn b => PyData.beq a b
  | .vint a, .vint b => a == b
  | .vstr a, .vstr b => a == b
  | .vobj t1 s1 a1, .vobj t2 s2 a2 =>
    t1 == t2 && s1 == s2 && PyData.beqAttrs a1 a2
  | _, _ => false

def PyData.beqAttrs : List (String × PyData) → List (String × PyData) → Bool
  | [], [] => true
  | (n1, v1) :: r1, (n2, v2) :: r2 =>
    n1 == n2 && PyData.beq v1 v2 && PyData.beqAttrs r1 r2
  | _, _ => false

end

/-- The runtime type of a value, for `isinstance` checks. -/
def PyData.typeOf : PyData → PyType
  | .vnone => .tObject
  | .vdyn _ => .tDyn
  | .vint _ => .tInt
  | .vstr _ => .tStr
  | .vobj ty _ _ => ty

/-- Embeds `isinstance(data, t)`. -/
def pyIsinstance (d : PyData) (t : PyType) : Bool :=
  pyIssubclass d.typeOf t

/-- Embeds `isinstance(data, _Schema)`, the meaning `MetaSchema.__instancecheck__`
gives to `isinstance(data, type(self))`. -/
def PyData.isSchemaInst : PyData → Bool
  | .vobj _ isSchema _ => isSchema
  | _ => false

/-- Embeds `hasattr(data, name)`. -/
def PyData.hasattrb : PyData → String → Bool
  | .vobj _ _ attrs, nm => (attrs.lookup nm).isSome
  | _, _ => false

/-- Embeds `getattr(data, name)` (total: the engine only calls it under
`hasattr`). -/
def PyData.getattrd : PyData → String → PyData
  | .vobj _ _ attrs, nm => (attrs.lookup nm).getD .vnone
  | _, _ => .vnone

/-- Python exceptions raised by the embedded code, by raise site:
* `nullNotAllowed`: `TypeError('Value can not be null')` in `_validate`;
* `typeMismatch`: the two wrong-type `TypeError`s in `_validate`;
* `requiredMissing n`: `ValueError('Mandatory schema n ... is missing')`;
* `sigMismatch`: the `TypeError`s of `FunctionSchema._validate`;
* `attributeError`, `keyError`, `indexError`, `importError`: the
  corresponding builtin exceptions;
* `unhashableError`: `TypeError: unhashable type` (a class defining
  `__eq__` without `__hash__` is unhashable in Python 3);
* `recursionError`: `RecursionError` (fuel exhaustion). -/
inductive PyErr : Type where
  | nullNotAllowed
  | typeMismatch
  | requiredMissing (name : String)
  | sigMismatch (what : String)
  | attributeError (attr : String)
  | keyError (key : String)
  | indexError
  | importError
  | unhashableError
  | recursionError
  deriving DecidableEq, Repr

/-- A schema instance, as consulted by `_Schema._validate` /
`RefSchema._validate` (`base.py:220-258` and `base.py:282-286`):
`dataTypes` is `__data_types__`, `children` is `getschemas()` (inner
schemas by name, in `getmembers` order), `isRef` tells whether the
instance is a `RefSchema` (whose `_validate` override delegates to
`refOpt`, or to the owner when `refOpt` is `none`). -/
inductive SchemaInst : Type where
  | mk (dataTypes : List PyType) (nullable : Bool) (required : List String)
      (children : List (String × SchemaInst))
      (isRef : Bool) (refOpt : Option SchemaInst) : SchemaInst

def SchemaInst.dataTypes : SchemaInst → List PyType
  | .mk d _ _ _ _ _ => d

def SchemaInst.nullable : SchemaInst → Bool
  | .mk _ n _ _ _ _ => n

def SchemaInst.required : SchemaInst → List String
  | .mk _ _ r _ _ _ => r

def SchemaInst.children : SchemaInst → List (String × SchemaInst)
  | .mk _ _ _ c _ _ => c

def SchemaInst.isRef : SchemaInst → Bool
  | .mk _ _ _ _ i _ => i

def SchemaInst.refOpt : SchemaInst → Option SchemaInst
  | .mk _ _ _ _ _ r => r

mutual

/-- Dynamic dispatch of `schema._validate(data, owner)`: `RefSchema`
overrides `_validate` to delegate to `self.ref`, or to `owner` when
`self.ref is None`; `owner = None` then raises `AttributeError`
(`None._validate` does not exist).  Every other schema runs the base
routine. -/
def sValidate (fuel : Nat) (s : SchemaInst) (data : PyData)
    (owner : Option SchemaInst) : Except PyErr Unit :=
  match fuel with
  | 0 => throw .recursionError
  | Nat.succ f =>
    if s.isRef then
      match s.refOpt, owner with
      | some r, _ => sValidate f r data owner
      | none, some w => sValidate f w data owner
      | none, none => throw (.attributeError "_validate")
    else
      baseValidate f s data

/-- Embeds `_Schema._validate` (`base.py:220-258`), translated line by line:
unwrap a `DynamicValue`, reject `None` when not nullable, then check type
membership.  NOTE: in the source, the loop over `getschemas()` that checks
`required` members sits *after* the `raise TypeError` inside the
`elif not isinstance(data, type(self))` branch, so it is dead code; the
translation keeps it in that (unreachable) position. -/
def baseValidate (fuel : Nat) (s : SchemaInst) (data0 : PyData) :
    Except PyErr Unit :=
  match fuel with
  | 0 => throw .recursionError
  | Nat.succ f =>
    let data := match data0 with
      | .vdyn inner => inner
      | d => d
    if data.isNone then
      if s.nullable then Except.ok () else throw .nullNotAllowed
    else
      if s.dataTypes ≠ [] then
        if s.dataTypes.any (fun t => pyIsinstance data t) then Except.ok ()
        else throw .typeMismatch
      else
        if data.isSchemaInst then Except.ok ()
        else do
          throw .typeMismatch
          -- dead code in the source: this loop follows the raise above
          validFields f s.children s.required data

/-- The (unreachable) loop of `_Schema._validate`: for every inner schema,
raise `ValueError` when a `required` member is missing from `data`, else
recurse into the member value. -/
def validFields (fuel : Nat) (children : List (String × SchemaInst))
    (required : List String) (data : PyData) : Except PyErr Unit :=
  match fuel with
  | 0 => throw .recursionError
  | Nat.succ f =>
    match children with
    | [] => Except.ok ()
    | (nm, child) :: rest =>
      if required.contains nm && !(data.hasattrb nm) then
        throw (.requiredMissing nm)
      else if data.hasattrb nm then do
        sValidate f child (data.getattrd nm) none
        validFields f rest required data
      else
        validFields f rest required data

end

/-- Length of the `ref` chain of a `RefSchema`; bounds the only live
recursion of `sValidate` when `owner = None`. -/
def SchemaInst.refDepth : SchemaInst → Nat
  | .mk _ _ _ _ _ none => 0
  | .mk _ _ _ _ _ (some r) => r.refDepth + 1

/-- The module-level entry point `validate(schema, data)`
(`base.py:420-427`): calls `schema._validate(data=data)` with the default
`owner=None`.  The fuel is ample for every terminating configuration. -/
def validate (s : SchemaInst) (data : PyData) : Except PyErr Unit :=
  sValidate (s.refDepth + 2) s data none

/-! ## The required-members check (claim C1) -/

/-- Does a validation outcome report a missing required member
(the `ValueError` of `base.py:250-255`)? -/
def isRequiredErr : Except PyErr Unit → Bool
  | .error (.requiredMissing _) => true
  | _ => false

/-- An integer leaf schema (as `IntegerSchema` declares
`__data_types__ = [int]`). -/
def intChild : SchemaInst := .mk [.tInt] false [] [] false none

/-- The `Point` schema of the spec scenario: no `__data_types__`,
nested schemas `x` and `y`, `required = [x, y]`. -/
def pointSchema : SchemaInst :=
  .mk [] true ["x", "y"] [("x", intChild), ("y", intChild)] false none

/-- A data object carrying only `x` (a schema instance, so it passes the
type-membership check). -/
def pointDataOnlyX : PyData := .vobj .tObject true [("x", .vint 1)]

theorem baseValidate_not_required (fuel : Nat) (s : SchemaInst)
    (d : PyData) : isRequiredErr (baseValidate fuel s d) = false := by
  match fuel with
  | 0 => rfl
  | Nat.succ f =>
    simp only [baseValidate]
    split
    · split <;> rfl
    · split
      · split <;> rfl
      · split
        · rfl
        · rfl

theorem sValidate_not_required (fuel : Nat) (s : SchemaInst) (d : PyData)
    (o : Option SchemaInst) : isRequiredErr (sValidate fuel s d o) = false := by
  induction fuel generalizing s o with
  | zero => rfl
  | succ f ih =>
    simp only [sValidate]
    split
    · split
      · exact ih ..
      · exact ih ..
      · rfl
    · exact baseValidate_not_required ..

/-- C1.  The claim is wrong about the code: the loop of
`_Schema._validate` that checks `required` members and recurses into
nested schemas (`base.py:247-258`) is dead code — it sits after the
`raise TypeError` of the `elif not isinstance(data, type(self))` branch.
Consequently validating the `Point` scenario data that lacks `y` succeeds
instead of raising `RequiredFieldMissing`, and no validation outcome is
ever a required-member error. -/
theorem claim_C1_required_check_unreachable :
    validate pointSchema pointDataOnlyX = Except.ok () ∧
    ∀ (fuel : Nat) (s : SchemaInst) (d : PyData) (o : Option SchemaInst),
      isRequiredErr (sValidate fuel s d o) = false := by
  constructor
  · rfl
  · exact sValidate_not_required

/-! ## Null handling (claim C2) -/

/-- A plain schema with `nullable=True` and no declared data types. -/
def nullableBase : SchemaInst := .mk [] true [] [] false none

/-- A `RefSchema` with `nullable=False` whose `ref` is a nullable
schema. -/
def strictRef : SchemaInst := .mk [] false [] [] true (some nullableBase)

/-- C2 counterexample.  The claim quantifies over *every* Schema
instance, but `RefSchema._validate` (`base.py:282-286`) delegates
validation wholesale to `self.ref`, ignoring the instance's own
`nullable`: a `RefSchema` with `nullable=False` and a nullable `ref`
accepts `None`. -/
theorem claim_C2_counterexample :
    strictRef.nullable = false ∧ validate strictRef PyData.vnone = Except.ok () :=
  ⟨rfl, rfl⟩

/-- C2 (amended: restricted to schemas validated by the base
`_Schema._validate`, i.e. not a `RefSchema`, whose override delegates to
its `ref`/owner).  For such s: `nullable=False` makes `validate(s, None)`
raise the null-not-permitted `TypeError`, and `nullable=True` makes it
return without raising. -/
theorem claim_C2_nullable (s : SchemaInst) (h : s.isRef = false) :
    (s.nullable = false → validate s PyData.vnone = Except.error PyErr.nullNotAllowed) ∧
    (s.nullable = true → validate s PyData.vnone = Except.ok ()) := by
  have hv : validate s PyData.vnone
      = baseValidate (s.refDepth + 1) s PyData.vnone := by
    simp only [validate, sValidate, h]
    rfl
  constructor
  · intro hn
    simp only [hv, baseValidate, PyData.isNone, hn]
    rfl
  · intro hn
    simp only [hv, baseValidate, PyData.isNone, hn]
    rfl

theorem claim_C2_nullable_witness :
    nullableBase.isRef = false ∧ validate nullableBase PyData.vnone = Except.ok () :=
  ⟨rfl, (claim_C2_nullable nullableBase rfl).2 rfl⟩

/-! ## The attribute setter (claim C9) -/

/-- Update an insertion-ordered Python `dict` (overwrite in place when the
key exists, append otherwise). -/
def dictSet [DecidableEq κ] (l : List (κ × α)) (k : κ) (v : α) :
    List (κ × α) :=
  if (l.lookup k).isSome then
    l.map (fun p => if p.1 = k then (k, v) else p)
  else
    l ++ [(k, v)]

/-- Evaluate a `DynamicValue` argument once, as `_setter` and `_validate`
do on entry. -/
def unwrapDyn : PyData → PyData
  | .vdyn inner => inner
  | d => d

/-- A container object: its instance `__dict__` (the private slots) and,
when the container is itself a schema, its schema view (used by the
`isinstance(obj, _Schema)` notification check and by owner-delegation). -/
structure PyObj : Type where
  slots : List (String × PyData)
  asSchema : Option SchemaInst

/-- Observable effects of `_Schema._setter` on the container, in program
order: invoking the custom `fset`, writing the private slot, and the
`obj._setvalue` notification. -/
inductive SetEvent : Type where
  | fsetCall (value : PyData)
  | slotWrite (attr : String) (value : PyData)
  | notifySetvalue (value : PyData)
  deriving Repr

/-- Embeds `_attrname` (`base.py:129-136`): the private slot is
`'_' + (self._name or self._uuid)`. -/
def attrname (sname uuid : String) : String :=
  "_" ++ (if sname ≠ "" then sname else uuid)

/-- Validation fuel for a setter call: covers the `ref` chains of the
schema and of the owner, with margin; a genuinely cyclic owner
delegation exhausts it, modelling Python's `RecursionError`. -/
def setterFuel (s : SchemaInst) (obj : PyObj) : Nat :=
  s.refDepth + (obj.asSchema.elim 0 SchemaInst.refDepth) + 3

/-- Embeds `_Schema._setter` (`base.py:171-197`), translated in program order:
evaluate a `DynamicValue`, run `self._validate(data=value, owner=obj)`,
then either call the custom setter or write the private slot, then notify
a schema container.  Returns the resulting container, the effects
performed, and the exception if one was raised. -/
def pySetter (s : SchemaInst) (sname uuid : String) (hasFset : Bool)
    (obj : PyObj) (value0 : PyData) :
    PyObj × List SetEvent × Option PyErr :=
  let value := unwrapDyn value0
  match sValidate (setterFuel s obj) s value obj.asSchema with
  | .error e => (obj, [], some e)
  | .ok () =>
    let notif : List SetEvent :=
      if (obj.asSchema).isSome then [.notifySetvalue value] else []
    if hasFset then
      (obj, .fsetCall value :: notif, none)
    else
      ({ obj with slots := dictSet obj.slots (attrname sname uuid) value },
        .slotWrite (attrname sname uuid) value :: notif, none)

/-- C9.  Validation runs strictly before any write: when it raises, the
setter re-raises that very exception, the container (its slots included)
is returned unchanged, no custom setter is invoked and no notification is
delivered. -/
theorem claim_C9_set_validates_before_write
    (s : SchemaInst) (sname uuid : String) (hasFset : Bool) (obj : PyObj)
    (value : PyData) (e : PyErr)
    (h : sValidate (setterFuel s obj) s (unwrapDyn value) obj.asSchema
      = Except.error e) :
    pySetter s sname uuid hasFset obj value = (obj, [], some e) := by
  simp only [pySetter, h]

/-- A non-nullable plain schema, used as a concrete failing setter
target. -/
def strictBase : SchemaInst := .mk [] false [] [] false none

theorem claim_C9_set_validates_before_write_witness :
    pySetter strictBase "t" "u0" false ⟨[("_t", PyData.vint 5)], none⟩ PyData.vnone
      = (⟨[("_t", PyData.vint 5)], none⟩, [], some PyErr.nullNotAllowed) :=
  claim_C9_set_validates_before_write strictBase "t" "u0" false
    ⟨[("_t", PyData.vint 5)], none⟩ PyData.vnone PyErr.nullNotAllowed rfl

/-! ## Registry lookup by data type (claim C3) -/

/-- Embeds `SchemaRegistry.registercls` (`registry.py:108-116`): associate each
listed runtime type with the schema class (classes identified by their
name). -/
def registercls (tbl : List (PyType × String)) (schemacls : String)
    (dataTypes : List PyType) : List (PyType × String) :=
  dataTypes.foldl (fun t dt => dictSet t dt schemacls) tbl

/-- Embeds `SchemaRegistry.unregistercls` (`registry.py:159-177`): drop every
entry mapped to `schemacls` (when given), then drop the listed data
types (when given). -/
def unregistercls (tbl : List (PyType × String)) (schemacls : Option String)
    (dataTypes : Option (List PyType)) : List (PyType × String) :=
  let t1 := match schemacls with
    | some c => tbl.filter (fun p => p.2 ≠ c)
    | none => tbl
  match dataTypes with
  | some dts => t1.filter (fun p => !(dts.contains p.1))
  | none => t1

/-- Embeds `SchemaRegistry.getbydatatype` (`registry.py:203-225`): exact table
hit first; else, when `besteffort`, scan the registered data types in
insertion order and return the schema class of the first one that
`data_type` is a subclass of. -/
def getbydatatype (tbl : List (PyType × String)) (dataType : PyType)
    (besteffort : Bool) : Option String :=
  match tbl.lookup dataType with
  | some c => some c
  | none =>
    if besteffort then
      match tbl.find? (fun p => pyIssubclass dataType p.1) with
      | some p => some p.2
      | none => none
    else
      none

/-- Modelled from the claim's words (the statement under test, to be
compared with `getbydatatype`): the exact registered schema class when
one exists; otherwise, with best effort, the schema class of the first
registered runtime type in registration order that is a supertype of the
query type; otherwise nothing. -/
def lookupByTypeClaim (tbl : List (PyType × String)) (dataType : PyType)
    (besteffort : Bool) : Option String :=
  match tbl.lookup dataType with
  | some c => some c
  | none =>
    if besteffort then
      (tbl.find? (fun p => pyIssubclass dataType p.1)).map (fun p => p.2)
    else
      none

/-- The registry state after registering a schema class for `Number` and
then one for `int`. -/
def tblNumInt : List (PyType × String) :=
  registercls (registercls [] "NumberSchema" [.tNumber]) "IntSchema" [.tInt]

/-- C3.  `getbydatatype` behaves exactly as claimed (exact match first,
then first registered supertype in registration order, else nothing), and
in particular after registering schema classes for `Number` and `int`,
unregistering the `int` schema class makes lookup of `int` fall back to
the `Number` schema class. -/
theorem claim_C3_lookup_by_type :
    (∀ (tbl : List (PyType × String)) (dataType : PyType) (besteffort : Bool),
      getbydatatype tbl dataType besteffort
        = lookupByTypeClaim tbl dataType besteffort) ∧
    getbydatatype (unregistercls tblNumInt (some "IntSchema") none) .tInt true
      = some "NumberSchema" := by
  constructor
  · intro tbl dataType besteffort
    simp only [getbydatatype, lookupByTypeClaim]
    split
    · rfl
    · split
      · match h : tbl.find? (fun p => pyIssubclass dataType p.1) with
        | some p => simp [h]
        | none => simp [h]
      · rfl
  · rfl

/-! ## Registry registration (claim C10) -/

/-- A registered schema as `SchemaRegistry.register` inspects it: object
identity (`oid`), `uuid`, `name` and `getschemas()` (inner schemas by
name, in `getmembers` order). -/
inductive RSchema : Type where
  | mk (oid : Nat) (uuid : String) (name : String)
      (children : List (String × RSchema)) : RSchema

def RSchema.oid : RSchema → Nat
  | .mk o _ _ _ => o

def RSchema.uuid : RSchema → String
  | .mk _ u _ _ => u

def RSchema.name : RSchema → String
  | .mk _ _ n _ => n

def RSchema.children : RSchema → List (String × RSchema)
  | .mk _ _ _ c => c

mutual

/-- Embeds `_Schema.__eq__` (`base.py:138-140`): identity, or equality of the
`getschemas()` ordered dicts, whose values are compared with `__eq__`
recursively. -/
def pyEq : RSchema → RSchema → Bool
  | .mk o1 _ _ c1, .mk o2 _ _ c2 => o1 == o2 || pyEqChildren c1 c2

def pyEqChildren : List (String × RSchema) → List (String × RSchema) → Bool
  | [], [] => true
  | (n1, s1) :: r1, (n2, s2) :: r2 =>
    n1 == n2 && pyEq s1 s2 && pyEqChildren r1 r2
  | _, _ => false

end

/-- The instance tables of `SchemaRegistry`: schemas by uuid, and name
buckets. -/
structure RegState : Type where
  byuuid : List (String × RSchema)
  byname : List (String × List RSchema)

/-- Embeds `SchemaRegistry.register` (`registry.py:75-106`) under Python 3
semantics.  When the uuid is unknown, `result` stays `None` and
evaluating `result != schema` falls back to `schema.__ne__(None)`, the
negation of `_Schema.__eq__(schema, None)`, which calls
`None.getschemas()` and raises `AttributeError` before any mutation.
When the registered schema differs from `schema`, the uuid entry is
overwritten and the name bucket created, after which
`schemas.add(schema)` raises `TypeError`: `_Schema` defines `__eq__`
without `__hash__`, so its instances are unhashable in Python 3. -/
def register (st : RegState) (schema : RSchema) :
    RegState × Except PyErr (Option RSchema) :=
  match st.byuuid.lookup schema.uuid with
  | none => (st, Except.error (.attributeError "getschemas"))
  | some old =>
    if pyEq old schema then
      (st, Except.ok (some old))
    else
      let byname1 :=
        if (st.byname.lookup schema.name).isSome then st.byname
        else st.byname ++ [(schema.name, [])]
      ({ byuuid := dictSet st.byuuid schema.uuid schema, byname := byname1 },
        Except.error .unhashableError)

/-- C10.  The conditional core of the claim holds: when `s.uuid` is
already registered and the registered schema equals `s` under
`_Schema.__eq__`, `register` leaves the registry unchanged and returns
the previously registered schema.  But the "registering twice is a no-op
the second time" reading never materialises through `register` itself:
registering a schema whose uuid is unknown raises `AttributeError` while
evaluating `None != schema`, before anything is recorded. -/
theorem claim_C10_register_noop_when_equal :
    (∀ (st : RegState) (s old : RSchema),
      st.byuuid.lookup s.uuid = some old → pyEq old s = true →
      register st s = (st, Except.ok (some old))) ∧
    (∀ (st : RegState) (s : RSchema),
      st.byuuid.lookup s.uuid = none →
      register st s = (st, Except.error (.attributeError "getschemas"))) := by
  constructor
  · intro st s old hl he
    simp only [register, hl, he, if_pos]
  · intro st s hl
    simp only [register, hl]

/-- A concrete registered schema and the registry state that holds it. -/
def regSchema1 : RSchema := .mk 1 "u1" "n1" []

def regState1 : RegState := ⟨[("u1", regSchema1)], [("n1", [regSchema1])]⟩

theorem claim_C10_register_noop_when_equal_witness :
    register regState1 regSchema1 = (regState1, Except.ok (some regSchema1)) ∧
    register ⟨[], []⟩ regSchema1
      = (⟨[], []⟩, Except.error (.attributeError "getschemas")) :=
  ⟨claim_C10_register_noop_when_equal.1 regState1 regSchema1 regSchema1 rfl rfl,
    claim_C10_register_noop_when_equal.2 ⟨[], []⟩ regSchema1 rfl⟩

/-! ## Content resolution: updatecontent (claims C4, C5) -/

/-- A nested schema object as `updatecontent` manipulates it: object
identity plus the `name` attribute the pass may fill in. -/
structure MSchema : Type where
  oid : Nat
  name : String
  deriving DecidableEq, Repr

/-- A class attribute value, as classified by `updatecontent`
(`base.py:317-356`): a `DynamicValue` evaluating to `inner`, an attribute
that is already a `_Schema` instance, a `This` placeholder carrying
constructor arguments, or any other plain value. -/
inductive Member : Type where
  | mdyn (inner : Member)
  | mschema (s : MSchema)
  | mthis (ctorArgs : String)
  | mplain (v : PyData)
  deriving Repr

/-- The collaborators of `updatecontent`.  `writable` models whether
`setattr(schemaclass, name, schema)` succeeds (an `AttributeError` /
`TypeError` is caught and breaks the loop).  `obj2schema` is modelled
from the spec: it stands for `b3j0f.schema.utils.obj2schema` (the
`utils` module is not part of the sources), which asks the registry for
a schema of the value's runtime type and may find none.  `mkRef` stands
for `RefSchema(default=member, name=name)` and `mkThis` for
`schemaclass(*fmember.args, **fmember.kwargs)`; both always produce a
schema object. -/
structure UCEnv : Type where
  writable : String → Bool
  obj2schema : Member → String → Option MSchema
  mkRef : Member → String → MSchema
  mkThis : String → MSchema
  exclude : List String

/-- Embeds the check `name[0] != '_'`, which holds for private attributes; attribute names are
nonempty, and the empty string is treated as public. -/
def pyIsPrivate (name : String) : Bool :=
  match name.data with
  | [] => false
  | c :: _ => c = '_'

/-- Embeds `schema.name = name` when the name is unset (`base.py:335-336`). -/
def fillName (name : String) (s : MSchema) : MSchema :=
  if s.name = "" then { s with name := name } else s

/-- One class's pass of `updatecontent` (`base.py:317-356`): walk the
class `__dict__` in order; for each public, non-excluded attribute,
evaluate a `DynamicValue`; keep an attribute that already is a schema
(filling its `name` in place, with no `setattr`); otherwise wrap a
`default` attribute in a `RefSchema`, instantiate a `This` placeholder,
or ask `obj2schema`; assign the result back when one was produced,
and on an assignment failure `break` out of the loop for this class.
Returns the resulting class `__dict__` and the list of attribute names
assigned via `setattr`. -/
def ucRun (env : UCEnv) : List (String × Member) →
    List (String × Member) × List String
  | [] => ([], [])
  | (name, member) :: rest =>
    if pyIsPrivate name || env.exclude.contains name then
      ((name, member) :: (ucRun env rest).1, (ucRun env rest).2)
    else
      match member with
      | .mdyn inner =>
        -- fmember = fmember(); toset = True
        match inner with
        | .mschema s =>
          if env.writable name then
            ((name, .mschema (fillName name s)) :: (ucRun env rest).1,
              name :: (ucRun env rest).2)
          else
            ((name, member) :: rest, [])
        | fm =>
          match (if name = "default" then some (env.mkRef member name)
            else match fm with
              | .mthis a => some (env.mkThis a)
              | _ => env.obj2schema member name) with
          | none => ((name, member) :: (ucRun env rest).1, (ucRun env rest).2)
          | some sch =>
            if env.writable name then
              ((name, .mschema sch) :: (ucRun env rest).1,
                name :: (ucRun env rest).2)
            else
              ((name, member) :: rest, [])
      | .mschema s =>
        -- already a schema: in-place name fill, no setattr
        ((name, .mschema (fillName name s)) :: (ucRun env rest).1,
          (ucRun env rest).2)
      | fm =>
        match (if name = "default" then some (env.mkRef member name)
          else match fm with
            | .mthis a => some (env.mkThis a)
            | _ => env.obj2schema member name) with
        | none => ((name, member) :: (ucRun env rest).1, (ucRun env rest).2)
        | some sch =>
          if env.writable name then
            ((name, .mschema sch) :: (ucRun env rest).1,
              name :: (ucRun env rest).2)
          else
            ((name, member) :: rest, [])

/-- Embeds `updatecontent(schemacls, updateparents=True)` (`base.py:289-358`), which
processes each class of the reversed MRO independently with the same
pass. -/
def updatecontent (env : UCEnv)
    (classes : List (List (String × Member))) :
    List (List (String × Member) × List String) :=
  classes.map (ucRun env)

/-- The nested-schema set resolved on a class: attribute name and schema
object identity for every schema-valued attribute. -/
def schemaSet (d : List (String × Member)) : List (String × Nat) :=
  d.filterMap (fun p => match p.2 with
    | .mschema s => some (p.1, s.oid)
    | _ => none)

theorem fillName_idem (n : String) (s : MSchema) :
    fillName n (fillName n s) = fillName n s := by
  by_cases h : s.name = ""
  · simp only [fillName, h, if_pos]
    split <;> rfl
  · simp only [fillName, h]
    simp [h]

theorem fillName_oid (n : String) (s : MSchema) :
    (fillName n s).oid = s.oid := by
  by_cases h : s.name = "" <;> simp [fillName, h]

theorem schemaSet_cons (n : String) (m : Member)
    (d : List (String × Member)) :
    schemaSet ((n, m) :: d)
      = (match m with
          | Member.mschema s => [(n, s.oid)]
          | _ => []) ++ schemaSet d := by
  cases m <;> rfl

/-- C4.  Running the pass a second time on the result of a first run
performs no `setattr` at all (in particular, attributes that are already
schema instances are not re-assigned, re-wrapped or duplicated) and
leaves the nested-schema set — attribute names with the identities of
their schema objects — unchanged. -/
theorem claim_C4_updatecontent_idempotent (env : UCEnv)
    (items : List (String × Member)) :
    (ucRun env (ucRun env items).1).2 = [] ∧
    schemaSet (ucRun env (ucRun env items).1).1
      = schemaSet (ucRun env items).1 := by
  induction items with
  | nil => exact ⟨rfl, rfl⟩
  | cons hd rest ih =>
    obtain ⟨name, member⟩ := hd
    by_cases hskip0 : (pyIsPrivate name || env.exclude.contains name) = true
    · have hskip : pyIsPrivate name = true ∨ name ∈ env.exclude := by
        simpa using hskip0
      simp [ucRun, hskip, schemaSet_cons, ih.1, ih.2]
    · have hskip : ¬(pyIsPrivate name = true ∨ name ∈ env.exclude) := by
        simpa using hskip0
      cases member with
      | mdyn inner =>
        cases inner with
        | mschema s =>
          by_cases hw : env.writable name = true
          · simp [ucRun, hskip, hw, fillName_idem, fillName_oid,
              schemaSet_cons, ih.1, ih.2]
          · simp [ucRun, hskip, hw]
        | mdyn inner2 =>
          cases hso : (if name = "default"
              then some (env.mkRef (.mdyn (.mdyn inner2)) name)
              else env.obj2schema (.mdyn (.mdyn inner2)) name) with
          | none => simp [ucRun, hskip, hso, schemaSet_cons, ih.1, ih.2]
          | some sch =>
            by_cases hw : env.writable name = true
            · simp [ucRun, hskip, hso, hw, fillName_idem, fillName_oid,
                schemaSet_cons, ih.1, ih.2]
            · simp [ucRun, hskip, hso, hw]
        | mthis a =>
          cases hso : (if name = "default"
              then some (env.mkRef (.mdyn (.mthis a)) name)
              else some (env.mkThis a)) with
          | none => simp [ucRun, hskip, hso, schemaSet_cons, ih.1, ih.2]
          | some sch =>
            by_cases hw : env.writable name = true
            · simp [ucRun, hskip, hso, hw, fillName_idem, fillName_oid,
                schemaSet_cons, ih.1, ih.2]
            · simp [ucRun, hskip, hso, hw]
        | mplain v =>
          cases hso : (if name = "default"
              then some (env.mkRef (.mdyn (.mplain v)) name)
              else env.obj2schema (.mdyn (.mplain v)) name) with
          | none => simp [ucRun, hskip, hso, schemaSet_cons, ih.1, ih.2]
          | some sch =>
            by_cases hw : env.writable name = true
            · simp [ucRun, hskip, hso, hw, fillName_idem, fillName_oid,
                schemaSet_cons, ih.1, ih.2]
            · simp [ucRun, hskip, hso, hw]
      | mschema s =>
        simp [ucRun, hskip, fillName_idem, fillName_oid, schemaSet_cons,
          ih.1, ih.2]
      | mthis a =>
        cases hso : (if name = "default"
            then some (env.mkRef (.mthis a) name)
            else some (env.mkThis a)) with
        | none => simp [ucRun, hskip, hso, schemaSet_cons, ih.1, ih.2]
        | some sch =>
          by_cases hw : env.writable name = true
          · simp [ucRun, hskip, hso, hw, fillName_idem, fillName_oid,
              schemaSet_cons, ih.1, ih.2]
          · simp [ucRun, hskip, hso, hw]
      | mplain v =>
        cases hso : (if name = "default"
            then some (env.mkRef (.mplain v) name)
            else env.obj2schema (.mplain v) name) with
        | none => simp [ucRun, hskip, hso, schemaSet_cons, ih.1, ih.2]
        | some sch =>
          by_cases hw : env.writable name = true
          · simp [ucRun, hskip, hso, hw, fillName_idem, fillName_oid,
              schemaSet_cons, ih.1, ih.2]
          · simp [ucRun, hskip, hso, hw]

/-- Does processing this attribute resolve a schema that must be assigned
back with `setattr` (the only step whose failure the pass catches)? -/
def needsAssign (env : UCEnv) (name : String) (member : Member) : Bool :=
  match member with
  | .mschema _ => false
  | .mdyn (.mschema _) => true
  | .mdyn fm =>
    (if name = "default" then some (env.mkRef member name)
      else match fm with
        | .mthis a => some (env.mkThis a)
        | _ => env.obj2schema member name).isSome
  | fm =>
    (if name = "default" then some (env.mkRef member name)
      else match fm with
        | .mthis a => some (env.mkThis a)
        | _ => env.obj2schema member name).isSome

/-- A concrete resolution environment in which assigning to attribute
`a` fails and every plain value resolves to a schema. -/
def envEx : UCEnv where
  writable := fun n => n ≠ "a"
  obj2schema := fun _ n => some ⟨7, n⟩
  mkRef := fun _ n => ⟨8, n⟩
  mkThis := fun _ => ⟨9, ""⟩
  exclude := []

/-- The class under resolution: two plain public attributes `a` then
`b`. -/
def itemsEx : List (String × Member) :=
  [("a", .mplain (.vint 1)), ("b", .mplain (.vint 2))]

/-- C5 counterexample.  Attribute `a` resolves to a schema but its
assignment fails; the claim says resolution still processes and assigns
the remaining attribute `b`, yet the pass returns with `b` still a plain
value (and nothing assigned at all): the `except` handler executes
`break`, not `continue` (`base.py:355-356`). -/
theorem claim_C5_counterexample :
    ucRun envEx itemsEx
      = ([("a", .mplain (.vint 1)), ("b", .mplain (.vint 2))], []) := rfl

/-- C5 (amended).  When assignment of a resolved attribute fails, the
pass abandons not just that attribute but the whole remainder of the
class being processed: the loop breaks, every entry from the failing one
on is left untouched, and no assignment is recorded; only subsequent
classes of the MRO are still processed (each class is handled by its own
loop). -/
theorem claim_C5_break_on_failed_assignment (env : UCEnv) (name : String)
    (member : Member) (rest : List (String × Member))
    (h1 : (pyIsPrivate name || env.exclude.contains name) = false)
    (h2 : needsAssign env name member = true)
    (h3 : env.writable name = false) :
    ucRun env ((name, member) :: rest) = ((name, member) :: rest, []) := by
  have hskip : ¬(pyIsPrivate name = true ∨ name ∈ env.exclude) := by
    simpa using h1
  have hw : ¬(env.writable name = true) := by simp [h3]
  cases member with
  | mdyn inner =>
    cases inner with
    | mschema s => simp [ucRun, hskip, hw]
    | mdyn inner2 =>
      rcases hiso : (if name = "default"
          then some (env.mkRef (.mdyn (.mdyn inner2)) name)
          else env.obj2schema (.mdyn (.mdyn inner2)) name) with _ | sch
      · simp [needsAssign, hiso] at h2
      · simp [ucRun, hskip, hw, hiso]
    | mthis a =>
      rcases hiso : (if name = "default"
          then some (env.mkRef (.mdyn (.mthis a)) name)
          else some (env.mkThis a)) with _ | sch
      · simp [needsAssign, hiso] at h2
      · simp [ucRun, hskip, hw, hiso]
    | mplain v =>
      rcases hiso : (if name = "default"
          then some (env.mkRef (.mdyn (.mplain v)) name)
          else env.obj2schema (.mdyn (.mplain v)) name) with _ | sch
      · simp [needsAssign, hiso] at h2
      · simp [ucRun, hskip, hw, hiso]
  | mschema s => simp [needsAssign] at h2
  | mthis a =>
    rcases hiso : (if name = "default"
        then some (env.mkRef (.mthis a) name)
        else some (env.mkThis a)) with _ | sch
    · simp [needsAssign, hiso] at h2
    · simp [ucRun, hskip, hw, hiso]
  | mplain v =>
    rcases hiso : (if name = "default"
        then some (env.mkRef (.mplain v) name)
        else env.obj2schema (.mplain v) name) with _ | sch
    · simp [needsAssign, hiso] at h2
    · simp [ucRun, hskip, hw, hiso]

theorem claim_C5_break_on_failed_assignment_witness :
    ucRun envEx [("a", Member.mplain (.vint 1)), ("b", Member.mplain (.vint 2))]
      = ([("a", Member.mplain (.vint 1)), ("b", Member.mplain (.vint 2))], []) :=
  claim_C5_break_on_failed_assignment envEx "a" (Member.mplain (.vint 1))
    [("b", Member.mplain (.vint 2))] rfl rfl rfl

/-! ## Function signature derivation (claims C6, C7, C8) -/

/-- One `findall` match of the docstring grammar `_REC`
(`python.py:117-121`): the five groups `ptype1, pname1, pname2, ptype2,
rtype`, the empty string when a group did not participate. -/
structure DocMatch : Type where
  ptype1 : String
  pname1 : String
  pname2 : String
  ptype2 : String
  rtype : String
  deriving Repr

/-- A callable as `getargspec` and `FunctionSchema` inspect it: object
identity, `__name__`, the named parameters (`args`), the variadic
positional/keyword names, the defaults tuple (`None` or a list), and the
docstring matches (`none` when `__doc__ is None`). -/
structure FuncDecl : Type where
  oid : Nat
  fname : String
  args : List String
  vargs : Option String
  keywords : Option String
  defaults : Option (List PyData)
  doc : Option (List DocMatch)
  deriving Repr

/-- The per-parameter kwargs dictionary built by `_getparams_rtype`
(`python.py:233-248`): keys `name`, `default`, `type` and `hasvalue` are
always present (`type` is never set to anything but `None`); the key
`ref` exists only when the parameter has a default or a doc annotation
set it — `refKey = none` models the *absent* key, whose later access
raises `KeyError`. -/
structure PKwargs : Type where
  name : String
  default : PyData
  ptype : Option PyType
  hasvalue : Bool
  refKey : Option (Option MSchema)
  deriving Repr

/-- The positional seeding of the params dict (`python.py:227-248`):
`indexlen` is the count of non-defaulted parameters; a parameter at
`index >= indexlen` receives the matching default, a `ref` from
`data2schema` and `hasvalue=True`.  `d2s` models
`b3j0f.schema.utils.data2schema` (the `utils` module is not part of the
sources). -/
def initParams (d2s : PyData → Option MSchema) (f : FuncDecl) :
    List PKwargs :=
  let dflts := f.defaults.getD []
  let indexlen := f.args.length - dflts.length
  f.args.enum.map (fun p =>
    if indexlen ≤ p.1 then
      let value := dflts.getD (p.1 - indexlen) .vnone
      { name := p.2
        default := value
        ptype := none
        hasvalue := true
        refKey := some (d2s value) }
    else
      { name := p.2
        default := .vnone
        ptype := none
        hasvalue := false
        refKey := none })

/-- Embeds `params[pname]['ref'] = ref` (`python.py:271`): update the entry by
key; a `pname` that is not a parameter raises `KeyError`. -/
def docUpdate (params : List PKwargs) (pname : String)
    (r : Option MSchema) : Except PyErr (List PKwargs) :=
  if params.any (fun p => p.name = pname) then
    Except.ok (params.map (fun p =>
      if p.name = pname then { p with refKey := some r } else p))
  else
    Except.error (.keyError pname)

/-- Embeds `pname = match[1] or match[3]` (`python.py:263`).  The group
tuple is `(ptype1, pname1, pname2, ptype2, rtype)`, so index 3 is
`ptype2`: for a `:type name: type` match the source takes the *type
text* as the parameter name. -/
def docPname (m : DocMatch) : String :=
  if m.pname1 ≠ "" then m.pname1 else m.ptype2

/-- Embeds `ptype = match[0] or match[2]` (`python.py:266`).  Group
index 2 is `pname2`: for a `:type name: type` match the source looks up
the *parameter name* as the type. -/
def docPtype (m : DocMatch) : String :=
  if m.ptype1 ≠ "" then m.ptype1 else m.pname2

/-- The docstring pass of `_getparams_rtype` (`python.py:253-271`): take
the first `:rtype:` group as the return type (and skip the rest of that
match); for a parameter annotation, look the type up and store the
resolved schema under the `ref` key.  `docRef` models
`lookup(ptype)` composed with `getschemafromdatatype` (both from modules
that are not part of the sources); its error case models a failing
import. -/
def docLoop (docRef : String → Except PyErr (Option MSchema)) :
    List DocMatch → List PKwargs → Option String →
    Except PyErr (List PKwargs × Option String)
  | [], params, rt => Except.ok (params, rt)
  | m :: ms, params, rt =>
    if rt.isNone ∧ m.rtype ≠ "" then
      docLoop docRef ms params (some m.rtype)
    else
      if docPname m ≠ "" then do
        let r ← docRef (docPtype m)
        let params2 ← docUpdate params (docPname m) r
        docLoop docRef ms params2 rt
      else
        docLoop docRef ms params rt

/-- Embeds `FunctionSchema._getparams_rtype` (`python.py:218-273`): seed the
params from the signature, then apply the docstring annotations; the
returned rtype is `rtype or ''`. -/
def getparams_rtype (d2s : PyData → Option MSchema)
    (docRef : String → Except PyErr (Option MSchema)) (f : FuncDecl) :
    Except PyErr (List PKwargs × String) :=
  match f.doc with
  | none => Except.ok (initParams d2s f, "")
  | some ms =>
    Except.map (fun pr => (pr.1, pr.2.getD ""))
      (docLoop docRef ms (initParams d2s f) none)

/-- A `ParamSchema` object held in a FunctionSchema's `params`
collection: object identity plus the attributes the deriver patches. -/
structure ParamObj : Type where
  oid : Nat
  name : String
  ref : Option MSchema
  default : PyData
  hasvalue : Bool
  deriving Repr

/-- Embeds `ParamSchema(**pkwarg)` (`python.py:204`): a fresh object taking
`name`, `default` and `hasvalue` from the kwargs, `ref` only when that
key exists (otherwise the class default `None`); the `type` key is
silently ignored — `ParamSchema` in this module has no such member. -/
def newParam (oid : Nat) (pk : PKwargs) : ParamObj :=
  { oid := oid
    name := pk.name
    ref := pk.refKey.getD none
    default := pk.default
    hasvalue := pk.hasvalue }

/-- The in-place update branch (`python.py:207-211`): assigns `name`,
then `selfparam.ref = pkwarg['ref']`, which raises `KeyError` when the
`ref` key is absent (as for every non-defaulted, unannotated
parameter). -/
def updParam (p : ParamObj) (pk : PKwargs) : Except PyErr ParamObj :=
  match pk.refKey with
  | none => Except.error (.keyError "ref")
  | some r =>
    Except.ok { p with
      name := pk.name
      ref := r
      default := pk.default
      hasvalue := pk.hasvalue }

/-- The enumerate loop of `FunctionSchema._setter`
(`python.py:193-211`): at each position, update the existing
`ParamSchema` in place, or on `IndexError` insert a fresh one (always at
the end). -/
def patchGo (fresh i : Nat) (ps : List ParamObj) :
    List PKwargs → Except PyErr (List ParamObj)
  | [] => Except.ok ps
  | pk :: rest =>
    match ps.get? i with
    | none => patchGo (fresh + 1) (i + 1) (ps ++ [newParam fresh pk]) rest
    | some p => do
      let p2 ← updParam p pk
      patchGo fresh (i + 1) (ps.set i p2) rest

/-- The params patch of `FunctionSchema._setter` (`python.py:191-213`):
run the enumerate loop, then `self.params = self.params[:index]`, where
`index` still holds the *last* enumerate value (`k-1` for `k` derived
parameters, `0` when there are none). -/
def patchParams (fresh : Nat) (old : List ParamObj)
    (pks : List PKwargs) : Except PyErr (List ParamObj) := do
  let ps ← patchGo fresh 0 old pks
  Except.ok (ps.take (if pks.isEmpty then 0 else pks.length - 1))

/-- Reassignment of the callable `default`: derive the params from the
new callable and patch the existing collection
(`python.py:191-213`; the preceding `ElementarySchema._setter` step —
validation and slot write — is the `_Schema._setter` modelled by
`pySetter`, and the trailing `rtype`/`impl` bookkeeping does not touch
`params`). -/
def fsetterPatch (d2s : PyData → Option MSchema)
    (docRef : String → Except PyErr (Option MSchema)) (fresh : Nat)
    (old : List ParamObj) (f : FuncDecl) :
    Except PyErr (List ParamObj) := do
  let pr ← getparams_rtype d2s docRef f
  patchParams fresh old pr.1

/-- The state of a bound `FunctionSchema` inspected by its `_validate`:
declared `name`, the previously derived `params`, the identity of the
bound callable (`self._default`), and `nullable` (False for
`ElementarySchema`). -/
structure FSchema : Type where
  name : String
  params : List ParamObj
  defaultOid : Option Nat
  nullable : Bool

/-- The per-position loop of `FunctionSchema._validate`
(`python.py:154-179`), kept in its (unreachable) source position — the
`self.rtype._validate` call before it always raises, see `fvalidate`:
compare names, then defaults, then reach
`issubclass(ptype, selfparam.type)` — evaluating `selfparam.type` would
itself raise `AttributeError`, since `ParamSchema` in this module
defines no `type` member (its `elementary.py` counterpart did). -/
def checkParamsGo (sps : List ParamObj) (i : Nat) :
    List PKwargs → Except PyErr Unit
  | [] => Except.ok ()
  | pk :: rest =>
    match sps.get? i with
    | none => throw .indexError
    | some sp =>
      if sp.name ≠ pk.name then throw (.sigMismatch "pname")
      else if ¬ (PyData.beq sp.default pk.default) = true then
        throw (.sigMismatch "pdefault")
      else do
        throw (.attributeError "type")
        checkParamsGo sps (i + 1) rest

/-- Embeds `FunctionSchema._validate` (`python.py:130-179`): the elementary
check (the base `_validate` with
`__data_types__ = [FunctionType, MethodType, LambdaType]`), then — only
for a callable that is not the currently bound one — the recorded-name
check, parameter re-derivation for comparison and the length check.
`self.rtype._validate(data=rtype)` (`python.py:152`) then raises
`AttributeError`: `self.rtype` is the stored rtype *string* (the class
attribute `rtype = ''` resolves to a string-schema descriptor whose
property getter returns the slot value, a string — also what
`python.py:191` assigns), and `str` has no `_validate`; the per-position
loop after it is dead code, kept in place.  `self.params` is never
re-derived here. -/
def fvalidate (d2s : PyData → Option MSchema)
    (docRef : String → Except PyErr (Option MSchema)) (fs : FSchema)
    (g : FuncDecl) : Except PyErr Unit := do
  sValidate 2 (.mk [.tFunction] fs.nullable [] [] false none)
    (.vobj .tFunction false []) none
  if some g.oid = fs.defaultOid then
    Except.ok ()
  else
    if g.fname ≠ fs.name then throw (.sigMismatch "fname")
    else do
      let pr ← getparams_rtype d2s docRef g
      if pr.1.length ≠ fs.params.length then throw (.sigMismatch "paramlen")
      else do
        -- `self.rtype._validate(data=rtype)`: the rtype string has no
        -- `_validate` attribute
        throw (.attributeError "_validate")
        -- dead code in the source: the loop follows the raise above
        checkParamsGo fs.params 0 pr.1

/-- The concrete callable of the claim: `f(a, b, c=3, *args, **kwargs)`
with no documentation. -/
def fC6 : FuncDecl :=
  ⟨10, "f", ["a", "b", "c"], some "args", some "kwargs",
    some [.vint 3], none⟩

/-- A trivial `data2schema` collaborator (finds no schema). -/
def d2sEx : PyData → Option MSchema := fun _ => none

/-- A trivial docstring type resolver. -/
def docRefEx : String → Except PyErr (Option MSchema) :=
  fun _ => Except.ok none

/-- The parameter kwargs the deriver actually produces for `fC6`. -/
def pksC6 : List PKwargs :=
  [⟨"a", .vnone, none, false, none⟩,
    ⟨"b", .vnone, none, false, none⟩,
    ⟨"c", .vint 3, none, true, some none⟩]

/-- C6 counterexample.  The derivation yields exactly three entries —
`a`, `b`, `c` — not four: `getargspec` does not list the variadic
parameters in `args`, and `_getparams_rtype` discards `vargs` and binds
the keywords name to `_` (`python.py:227`), so no
variadic-positional/variadic-keyword pair is ever built. -/
theorem claim_C6_counterexample :
    getparams_rtype d2sEx docRefEx fC6 = Except.ok (pksC6, "") ∧
    pksC6.length = 3 :=
  ⟨rfl, rfl⟩

theorem initParams_names (d2s : PyData → Option MSchema) (f : FuncDecl) :
    (initParams d2s f).map (fun p => p.name) = f.args := by
  rw [initParams, List.map_map]
  have h : ∀ p ∈ f.args.enum,
      ((fun p => p.name) ∘ (fun p =>
        if f.args.length - (f.defaults.getD []).length ≤ p.1 then
          ({ name := p.2
             default := (f.defaults.getD []).getD
               (p.1 - (f.args.length - (f.defaults.getD []).length)) .vnone
             ptype := none
             hasvalue := true
             refKey := some (d2s ((f.defaults.getD []).getD
               (p.1 - (f.args.length - (f.defaults.getD []).length))
               .vnone)) } : PKwargs)
        else
          { name := p.2
            default := .vnone
            ptype := none
            hasvalue := false
            refKey := none })) p = Prod.snd p := by
    intro p _
    simp only [Function.comp_apply]
    split <;> rfl
  rw [List.map_congr_left h, List.enum_map_snd]

theorem initParams_hasvalue (d2s : PyData → Option MSchema)
    (f : FuncDecl) :
    (initParams d2s f).map (fun p => p.hasvalue)
      = (List.range f.args.length).map
          (fun i => decide
            (f.args.length - (f.defaults.getD []).length ≤ i)) := by
  rw [initParams, List.map_map]
  have h : ∀ p ∈ f.args.enum,
      ((fun p => p.hasvalue) ∘ (fun p =>
        if f.args.length - (f.defaults.getD []).length ≤ p.1 then
          ({ name := p.2
             default := (f.defaults.getD []).getD
               (p.1 - (f.args.length - (f.defaults.getD []).length)) .vnone
             ptype := none
             hasvalue := true
             refKey := some (d2s ((f.defaults.getD []).getD
               (p.1 - (f.args.length - (f.defaults.getD []).length))
               .vnone)) } : PKwargs)
        else
          { name := p.2
            default := .vnone
            ptype := none
            hasvalue := false
            refKey := none })) p
        = ((fun i => decide
            (f.args.length - (f.defaults.getD []).length ≤ i)) ∘ Prod.fst)
            p := by
    intro p _
    simp only [Function.comp_apply]
    by_cases hc : f.args.length - (f.defaults.getD []).length ≤ p.1
    · rw [if_pos hc]
      simp [hc]
    · rw [if_neg hc]
      simp [hc]
  rw [List.map_congr_left h, ← List.map_map, List.enum_map_fst]

theorem docUpdate_preserves {params params2 : List PKwargs}
    {pname : String} {r : Option MSchema}
    (h : docUpdate params pname r = Except.ok params2) :
    params2.map (fun p => p.name) = params.map (fun p => p.name) ∧
    params2.map (fun p => p.hasvalue)
      = params.map (fun p => p.hasvalue) := by
  rw [docUpdate] at h
  split at h
  · cases h
    constructor <;> rw [List.map_map] <;>
      refine List.map_congr_left ?_ <;> intro p _ <;>
      by_cases hc : p.name = pname <;> simp [hc]
  · cases h

theorem docLoop_preserves
    (docRef : String → Except PyErr (Option MSchema))
    (ms : List DocMatch) :
    ∀ (params : List PKwargs) (rt : Option String)
      (params2 : List PKwargs) (rt2 : Option String),
      docLoop docRef ms params rt = Except.ok (params2, rt2) →
      params2.map (fun p => p.name) = params.map (fun p => p.name) ∧
      params2.map (fun p => p.hasvalue)
        = params.map (fun p => p.hasvalue) := by
  induction ms with
  | nil =>
    intro params rt params2 rt2 h
    rw [docLoop] at h
    cases h
    exact ⟨rfl, rfl⟩
  | cons m ms ih =>
    intro params rt params2 rt2 h
    rw [docLoop] at h
    split at h
    · exact ih params _ params2 rt2 h
    · split at h
      · rcases hdr : docRef (docPtype m) with e | r
        · rw [hdr] at h
          simp only [Except.instMonad, Except.bind] at h
          exact Except.noConfusion h
        · rw [hdr] at h
          simp only [Except.instMonad, Except.bind] at h
          rcases hdu : docUpdate params (docPname m) r with e2 | params3
          · rw [hdu] at h
            simp only [Except.bind] at h
            exact Except.noConfusion h
          · rw [hdu] at h
            simp only [Except.bind] at h
            obtain ⟨h1, h2⟩ := ih params3 rt params2 rt2 h
            obtain ⟨h3, h4⟩ := docUpdate_preserves hdu
            exact ⟨h1.trans h3, h2.trans h4⟩
      · exact ih params rt params2 rt2 h

/-- C6 (amended).  For the callable `f(a, b, c=3, *args, **kwargs)` the
deriver yields exactly three ParamSchemas named `a`, `b`, `c` (the
variadic pair is not represented), with `hasvalue=false` for `a` and
`b` and `hasvalue=true` (default `3`) for `c`; in general the derived
entries are named after the declared parameters in order and `hasvalue`
is true exactly when the parameter index falls within the defaulted
suffix. -/
theorem claim_C6_derived_params (d2s : PyData → Option MSchema)
    (docRef : String → Except PyErr (Option MSchema)) (f : FuncDecl)
    (pks : List PKwargs) (rt : String)
    (h : getparams_rtype d2s docRef f = Except.ok (pks, rt)) :
    pks.map (fun p => p.name) = f.args ∧
    pks.map (fun p => p.hasvalue)
      = (List.range f.args.length).map
          (fun i => decide
            (f.args.length - (f.defaults.getD []).length ≤ i)) := by
  rw [getparams_rtype] at h
  split at h
  · cases h
    exact ⟨initParams_names d2s f, initParams_hasvalue d2s f⟩
  · next ms hdoc =>
    rcases hdl : docLoop docRef ms (initParams d2s f) none with e | pr
    · rw [hdl] at h
      simp only [Except.map] at h
      exact Except.noConfusion h
    · rw [hdl] at h
      simp only [Except.map] at h
      cases h
      obtain ⟨h1, h2⟩ := docLoop_preserves docRef ms (initParams d2s f)
        none pr.1 pr.2 (by rw [hdl])
      exact ⟨h1.trans (initParams_names d2s f),
        h2.trans (initParams_hasvalue d2s f)⟩


theorem claim_C6_derived_params_witness :
    pksC6.map (fun p => p.name) = fC6.args ∧
    pksC6.map (fun p => p.hasvalue)
      = (List.range fC6.args.length).map
          (fun i => decide
            (fC6.args.length - (fC6.defaults.getD []).length ≤ i)) :=
  claim_C6_derived_params d2sEx docRefEx fC6 pksC6 "" rfl

/-- A pre-existing `ParamSchema` at position 0. -/
def paramX : ParamObj := ⟨5, "x", none, .vnone, false⟩

/-- The callable `g(a=1, b=2)`: two named parameters, both defaulted. -/
def gAB : FuncDecl :=
  ⟨11, "g", ["a", "b"], none, none, some [.vint 1, .vint 2], none⟩

/-- The callable `g(a)`: one named parameter without default and without doc. -/
def gA : FuncDecl := ⟨12, "g", ["a"], none, none, none, none⟩

/-- C7.  The patch of `FunctionSchema._setter` is broken in two ways the
repository's own test (`lang/test/python.py`, asserting
`len(schema.params) == 7` for a seven-parameter callable) contradicts:
(1) the final `self.params = self.params[:index]` truncates to the last
enumerate index, i.e. `k-1` entries for `k` derived parameters — here
reassigning `g(a=1, b=2)` to a schema with no previous params leaves one
entry instead of two; (2) updating a pre-existing entry reads
`pkwarg['ref']`, which raises `KeyError` for a parameter that has no
default and no doc annotation. -/
theorem claim_C7_patch_truncates_and_keyerrors :
    fsetterPatch d2sEx docRefEx 100 [] gAB
      = Except.ok [⟨100, "a", none, .vint 1, true⟩] ∧
    fsetterPatch d2sEx docRefEx 100 [paramX] gA
      = Except.error (.keyError "ref") :=
  ⟨rfl, rfl⟩

/-- A bound FunctionSchema `f(a)` whose callable has identity 1. -/
def fsOneParam : FSchema :=
  ⟨"f", [⟨20, "a", none, .vnone, false⟩], some 1, false⟩

/-- A bound FunctionSchema `f(a, b)` whose callable has identity 1. -/
def fsTwoParam : FSchema :=
  ⟨"f", [⟨20, "a", none, .vnone, false⟩, ⟨21, "b", none, .vnone, false⟩],
    some 1, false⟩

/-- A candidate callable `f(a)` distinct from the bound one and with a
fully matching signature. -/
def gSame : FuncDecl := ⟨2, "f", ["a"], none, none, none, none⟩

/-- A candidate callable `f(a, x)` diverging from `fsTwoParam` at
position 1. -/
def gDiverge : FuncDecl := ⟨3, "f", ["a", "x"], none, none, none, none⟩

/-- C8.  The recorded-name and parameter-count checks do raise the
claimed type errors, but the per-position name/default/type comparison
is never performed: every distinct candidate that passes those two
checks crashes at `self.rtype._validate(data=rtype)` (`python.py:152`)
with `AttributeError` — `self.rtype` is the stored rtype string, not a
schema — so a fully matching candidate fails instead of passing, and a
divergence at position 1 is reported as that same `AttributeError`
instead of the claimed type error. -/
theorem claim_C8_validate_crashes_on_rtype :
    fvalidate d2sEx docRefEx fsOneParam gSame
      = Except.error (.attributeError "_validate") ∧
    fvalidate d2sEx docRefEx fsTwoParam gDiverge
      = Except.error (.attributeError "_validate") ∧
    fvalidate d2sEx docRefEx fsOneParam ⟨4, "h", ["a"], none, none, none, none⟩
      = Except.error (.sigMismatch "fname") ∧
    fvalidate d2sEx docRefEx fsOneParam
      ⟨5, "f", ["a", "b"], none, none, none, none⟩
      = Except.error (.sigMismatch "paramlen") :=
  ⟨rfl, rfl, rfl, rfl⟩

end B3jSchema
